import Mathlib

/-!
Shallow embedding of the StorachaFS remote directory-tree adapter
(package `internal/fuse`, files `file.go` and the related `Lookup` source).

Strings are modelled as lists of characters (`Str`); the concrete inputs in
this development are ASCII, so `Char.toNat` of each character is exactly the
byte Go's `[]byte(s)` conversion would hash.  Go's `strings.Split`,
`strings.Trim` and `strings.HasSuffix` on the single-character separators
used by the source are modelled by structural functions below.  HTTP fetches
are modelled as explicit outcome values handed to the operation, matching
the single blocking `http.Get` each operation performs.
-/

/-- Character-list model of a Go string. -/
abbrev Str := List Char

/-- The characters of a Lean string literal, used to write concrete inputs. -/
def chars (s : String) : Str := s.data

/-- FNV-1a 64-bit offset basis (Go `hash/fnv` `fnv.New64a()` initial state). -/
def fnvOffset : Nat := 14695981039346656037

/-- FNV-1a 64-bit prime (Go `hash/fnv`). -/
def fnvPrime : Nat := 1099511628211

/-- One FNV-1a step: xor in the byte, multiply by the prime modulo 2^64. -/
def fnvStep (h b : Nat) : Nat := ((h ^^^ b) * fnvPrime) % 2 ^ 64

/-- Embedding of `hashInode(s string) uint64`: FNV-1a 64 over the bytes of `s`. -/
def hashInode (s : Str) : Nat := (s.map Char.toNat).foldl fnvStep fnvOffset

/-- Go `strings.Split(s, sep)` for a one-character separator: accumulator form. -/
def splitCharAux (sep : Char) : Str → Str → List Str
  | [], acc => [acc.reverse]
  | c :: rest, acc =>
      if c = sep then acc.reverse :: splitCharAux sep rest []
      else splitCharAux sep rest (c :: acc)

/-- Go `strings.Split(s, sep)` for a one-character separator. -/
def splitChar (sep : Char) (s : Str) : List Str := splitCharAux sep s []

/-- Go `strings.Trim(s, "/")`: drop all leading and trailing slashes. -/
def trimSlashes (s : Str) : Str :=
  ((s.dropWhile (· = '/')).reverse.dropWhile (· = '/')).reverse

/-- Go `strings.HasSuffix(s, sfx)`. -/
def hasSuffix (s sfx : Str) : Bool := sfx.isSuffixOf s

/-- Mode bits `fuse.S_IFDIR | 0555` the source assigns to directory entries. -/
def dirMode : Nat := 0x4000 ||| 0o555

/-- Mode bits `fuse.S_IFREG | 0444` the source assigns to file entries. -/
def fileMode : Nat := 0x8000 ||| 0o444

/-- Embedding of `fuse.DirEntry` as produced by `Readdir` (Ino, Name, Mode). -/
structure DirEntry where
  ino : Nat
  name : Str
  mode : Nat
  deriving DecidableEq, Repr

/-- Embedding of the `StorachaFS` directory-node state: the directory CID,
the debug flag, and the memoized listing (`cache`, `cached`) of `file.go`. -/
structure StorachaFS where
  cid : Str
  debug : Bool
  cache : List DirEntry
  cached : Bool
  deriving DecidableEq, Repr

/-- Embedding of `NewStorachaFS(rootCID, debug)`: zero-valued cache fields. -/
def NewStorachaFS (rootCID : Str) (debug : Bool) : StorachaFS :=
  { cid := rootCID, debug := debug, cache := [], cached := false }

/-- Embedding of the `StorachaFile` file-node state: `data = none` models the
nil Go slice (the `sf.data == nil` test); `some bytes` a non-nil slice. -/
structure StorachaFile where
  name : Str
  cid : Str
  data : Option (List Nat)
  debug : Bool
  deriving DecidableEq, Repr

/-- Embedding of `NewStorachaFile(name, cid, debug)`. -/
def NewStorachaFile (name cid : Str) (debug : Bool) : StorachaFile :=
  { name := name, cid := cid, data := none, debug := debug }

/-- Result of reading a response body with `io.ReadAll` and handing it to
`goquery.NewDocumentFromReader`: the read can fail, the parse can fail, or
the document's anchor `href` targets are extracted in document order. -/
inductive BodyResult where
  | readFail
  | parseFail
  | anchors (hrefs : List Str)
  deriving DecidableEq, Repr

/-- Outcome of the single `http.Get` of a listing fetch: a transport error
(`err != nil`), or a response carrying its HTTP status code and body.  The
source never reads `resp.StatusCode`; the field is carried so that theorems
can quantify over it. -/
inductive GetResult where
  | transportError
  | resp (status : Nat) (body : BodyResult)
  deriving DecidableEq, Repr

/-- The two `syscall.Errno` values the adapter returns: `0` and `ENOENT`. -/
inductive Errno where
  | ok
  | enoent
  deriving DecidableEq, Repr

/-- Embedding of the anchor-classification body of `Readdir`'s
`doc.Find("a").Each` callback: strip the query component, skip empty and
parent-reference targets, trim slashes and split on `/`, require at least
two segments with first segment `ipfs`, take the last segment as the name,
and mark a directory when the (query-stripped) target ends in `/`.  Returns
the `fuse.DirEntry` appended for this anchor, or `none` when skipped. -/
def classifyHref (parentCid : Str) (rawHref : Str) : Option DirEntry :=
  let href := (splitChar '?' rawHref).headD []
  if href = [] ∨ href = chars "../" then none
  else
    let parts := splitChar '/' (trimSlashes href)
    if parts.length < 2 ∨ parts.headD [] ≠ chars "ipfs" then none
    else
      let name := parts.getLastD []
      if name = [] then none
      else
        let isDir := hasSuffix href (chars "/")
        let mode := if isDir then dirMode else fileMode
        some { ino := hashInode (parentCid ++ chars "/" ++ name),
               name := name, mode := mode }

/-- The listing `Readdir` accumulates from a parsed document's anchors. -/
def parseEntries (parentCid : Str) (hrefs : List Str) : List DirEntry :=
  hrefs.filterMap (classifyHref parentCid)

/-- Embedding of `Readdir`: serve the memoized listing when `cached`;
otherwise perform one fetch, fail with `ENOENT` on transport, body-read or
parse failure, and on success memoize and return the accumulated entries.
Returns (result, updated node, number of HTTP GETs performed); the result is
`none` exactly when the call returns `syscall.ENOENT`. -/
def readdir (sfs : StorachaFS) (fetch : GetResult) :
    Option (List DirEntry) × StorachaFS × Nat :=
  if sfs.cached then (some sfs.cache, sfs, 0)
  else
    match fetch with
    | .transportError => (none, sfs, 1)
    | .resp _status body =>
        match body with
        | .readFail => (none, sfs, 1)
        | .parseFail => (none, sfs, 1)
        | .anchors hrefs =>
            let entries := parseEntries sfs.cid hrefs
            (some entries, { sfs with cache := entries, cached := true }, 1)

/-- The data `Lookup` extracts from the first matching anchor: the child CID
(`parts[1]`), the directory flag, and the stable identifier and mode it
assigns to the fresh child inode. -/
structure LookupResult where
  childCID : Str
  isDir : Bool
  ino : Nat
  mode : Nat
  deriving DecidableEq, Repr

/-- Embedding of `Lookup`'s `doc.Find("a").EachWithBreak` scan: the first
anchor whose query-stripped target ends in `/`+name or equals name AND
splits into at least two segments with first segment `ipfs` sets
`childCID := parts[1]` and `isDir` and breaks; every other anchor is passed
over. -/
def lookupScan (name : Str) : List Str → Option (Str × Bool)
  | [] => none
  | rawHref :: rest =>
      let href := (splitChar '?' rawHref).headD []
      if hasSuffix href (chars "/" ++ name) ∨ href = name then
        let parts := splitChar '/' (trimSlashes href)
        if 2 ≤ parts.length ∧ parts.headD [] = chars "ipfs" then
          some (parts.getD 1 [], hasSuffix href (chars "/"))
        else lookupScan name rest
      else lookupScan name rest

/-- Embedding of the tail of `Lookup` after the anchor scan: the
`childCID == ""` sentinel check (`ENOENT` when no anchor matched or the
matched anchor's second segment was empty) and the construction of the
child's attributes and stable identifier `hashInode(childCID + "/" + name)`. -/
def lookupFinish (name : Str) : Option (Str × Bool) → Option LookupResult
  | none => none
  | some (childCID, isDir) =>
      if childCID = [] then none
      else
        some { childCID := childCID, isDir := isDir,
               ino := hashInode (childCID ++ chars "/" ++ name),
               mode := if isDir then dirMode else fileMode }

/-- Embedding of `Lookup(name)` from the related `Lookup` source: it fetches
the listing unconditionally (it neither consults nor updates the node's
memoized cache), fails with `ENOENT` on transport/read/parse failure or when
no anchor matched (`childCID == ""`), and otherwise builds the child with
stable identifier `hashInode(childCID + "/" + name)`.  Returns
(result, number of HTTP GETs performed); the node state is untouched. -/
def lookup (_sfs : StorachaFS) (fetch : GetResult) (name : Str) :
    Option LookupResult × Nat :=
  match fetch with
  | .transportError => (none, 1)
  | .resp _status body =>
      match body with
      | .readFail => (none, 1)
      | .parseFail => (none, 1)
      | .anchors hrefs => (lookupFinish name (lookupScan name hrefs), 1)

/-- Outcome of the single `http.Get` of a content fetch in `Open`: a
transport error, or a response whose `io.ReadAll` returned `bytes` together
with a possible read error (`readErr`); the source discards that error with
`data, _ := io.ReadAll(...)`, and `io.ReadAll` always returns a non-nil
slice, so `bytes` is present even when `readErr` is true. -/
inductive ContentFetch where
  | transportError
  | resp (bytes : List Nat) (readErr : Bool)
  deriving DecidableEq, Repr

/-- Embedding of `StorachaFile.Open`: when `data` is nil, perform one fetch;
a transport error returns `ENOENT` and leaves `data` nil; otherwise the
bytes `io.ReadAll` produced are stored (its error is discarded) and the call
succeeds.  When `data` is already non-nil the call succeeds with no fetch. -/
def openFile (sf : StorachaFile) (fetch : ContentFetch) : Errno × StorachaFile :=
  match sf.data with
  | some _ => (.ok, sf)
  | none =>
      match fetch with
      | .transportError => (.enoent, sf)
      | .resp bytes _readErr => (.ok, { sf with data := some bytes })

/-- Embedding of `StorachaFile.Read(dest, off)`: Go's `len(sf.data)` of a
nil slice is 0, so the payload is `sf.data.getD []`; when `off` is at or
past the end an empty result is returned with errno 0, otherwise the slice
`data[off:end]` with `end = min(off+len(dest), len(data))`, errno 0. -/
def readFile (sf : StorachaFile) (off : Nat) (destLen : Nat) :
    List Nat × Errno :=
  let data := sf.data.getD []
  if data.length ≤ off then ([], .ok)
  else
    let stop := off + destLen
    let stop2 := if data.length < stop then data.length else stop
    ((data.drop off).take (stop2 - off), .ok)

/-- Embedding of `StorachaFile.Getattr`: read-only regular-file mode, size
`len(sf.data)`, and all three timestamps set to the current time `now`.  It
is a pure function of the node and the clock: it performs no fetch and does
not change the node. -/
structure Attr where
  mode : Nat
  size : Nat
  mtime : Nat
  atime : Nat
  ctime : Nat
  deriving DecidableEq, Repr

/-- Embedding of `StorachaFile.Getattr` (see `Attr`). -/
def getattrFile (sf : StorachaFile) (now : Nat) : Attr :=
  { mode := fileMode, size := (sf.data.getD []).length,
    mtime := now, atime := now, ctime := now }

/-- Helper: any entry `classifyHref` produces carries the stable identifier
`hashInode(parentCid + "/" + name)` built from the parent CID and the
entry's own name. -/
theorem classifyHref_ino (cid h : Str) (e : DirEntry)
    (hc : classifyHref cid h = some e) :
    e.ino = hashInode (cid ++ chars "/" ++ e.name) := by
  simp only [classifyHref] at hc
  split at hc
  · exact Option.noConfusion hc
  · split at hc
    · exact Option.noConfusion hc
    · split at hc
      · exact Option.noConfusion hc
      · cases hc
        rfl

/-- C1, counterexample: on a directory with CID `QmParent` whose listing has
the single anchor `/ipfs/QmChild/a.txt`, Readdir reports the entry with
`Ino = hashInode("QmParent/a.txt")` while Lookup("a.txt") assigns the child
the identifier `hashInode("QmChild/a.txt")`, and these two values differ —
so the identifier reported by Readdir does not equal the identifier
assigned by Lookup for the same (parent CID, name) pair. -/
theorem C1_readdir_lookup_ino_differ :
    readdir (NewStorachaFS (chars "QmParent") false)
        (.resp 200 (.anchors [chars "/ipfs/QmChild/a.txt"])) =
      (some [{ ino := hashInode (chars "QmParent/a.txt"),
               name := chars "a.txt", mode := fileMode }],
       { cid := chars "QmParent", debug := false,
         cache := [{ ino := hashInode (chars "QmParent/a.txt"),
                     name := chars "a.txt", mode := fileMode }],
         cached := true }, 1) ∧
    (lookup (NewStorachaFS (chars "QmParent") false)
        (.resp 200 (.anchors [chars "/ipfs/QmChild/a.txt"]))
        (chars "a.txt")).1 =
      some { childCID := chars "QmChild", isDir := false,
             ino := hashInode (chars "QmChild/a.txt"), mode := fileMode } ∧
    hashInode (chars "QmParent/a.txt") ≠ hashInode (chars "QmChild/a.txt") := by
  decide

/-- C1, amended: the two identifiers are each deterministic hashes but of
different inputs: every entry Readdir returns for a directory with CID
`cid` has `Ino = hashInode(cid + "/" + name)` (the parent CID), while the
node Lookup(name) constructs gets `ino = hashInode(childCID + "/" + name)`
where `childCID` is the child's own CID taken from the matched anchor; the
two agree only when the two hashes coincide (in particular when the child's
CID equals the parent's), not in general. -/
theorem C1_stable_identifier :
    (∀ (cid : Str) (hrefs : List Str) (e : DirEntry),
        e ∈ parseEntries cid hrefs →
        e.ino = hashInode (cid ++ chars "/" ++ e.name)) ∧
    (∀ (s : StorachaFS) (f : GetResult) (name : Str) (r : LookupResult),
        (lookup s f name).1 = some r →
        r.ino = hashInode (r.childCID ++ chars "/" ++ name)) := by
  constructor
  · intro cid hrefs e he
    simp only [parseEntries] at he
    obtain ⟨h, _hh, hc⟩ := List.mem_filterMap.mp he
    exact classifyHref_ino cid h e hc
  · intro s f name r hr
    cases f with
    | transportError => exact Option.noConfusion hr
    | resp st body =>
        cases body with
        | readFail => exact Option.noConfusion hr
        | parseFail => exact Option.noConfusion hr
        | anchors hrefs =>
            simp only [lookup] at hr
            cases hscan : lookupScan name hrefs with
            | none => rw [hscan] at hr; exact Option.noConfusion hr
            | some pr =>
                obtain ⟨childCID, d⟩ := pr
                rw [hscan] at hr
                simp only [lookupFinish] at hr
                split at hr
                · exact Option.noConfusion hr
                · cases hr
                  rfl

/-- C1, witness for the amended theorem at concrete inputs. -/
theorem C1_stable_identifier_witness :
    ({ ino := hashInode (chars "QmRoot/a.txt"), name := chars "a.txt",
       mode := fileMode } : DirEntry).ino =
      hashInode (chars "QmRoot" ++ chars "/" ++ chars "a.txt") ∧
    ({ childCID := chars "QmChild", isDir := false,
       ino := hashInode (chars "QmChild/a.txt"),
       mode := fileMode } : LookupResult).ino =
      hashInode (chars "QmChild" ++ chars "/" ++ chars "a.txt") := by
  refine ⟨C1_stable_identifier.1 (chars "QmRoot") [chars "/ipfs/CID1/a.txt"] _ ?_,
    C1_stable_identifier.2 (NewStorachaFS (chars "QmRoot") false)
      (.resp 200 (.anchors [chars "/ipfs/QmChild/a.txt"])) (chars "a.txt") _ ?_⟩
  · decide
  · decide

/-- C2, counterexample: after a successful Readdir the node is memoized and
its cache holds the entry named `a.txt`, yet a subsequent Lookup("a.txt")
still performs one new listing fetch (fetch count 1, not 0) and, when that
fetch fails, the Lookup fails instead of resolving the name against the
memoized listing. -/
theorem C2_lookup_refetches :
    readdir (NewStorachaFS (chars "QmParent") false)
        (.resp 200 (.anchors [chars "/ipfs/QmChild/a.txt"])) =
      (some [{ ino := hashInode (chars "QmParent/a.txt"),
               name := chars "a.txt", mode := fileMode }],
       { cid := chars "QmParent", debug := false,
         cache := [{ ino := hashInode (chars "QmParent/a.txt"),
                     name := chars "a.txt", mode := fileMode }],
         cached := true }, 1) ∧
    lookup
      { cid := chars "QmParent", debug := false,
        cache := [{ ino := hashInode (chars "QmParent/a.txt"),
                    name := chars "a.txt", mode := fileMode }],
        cached := true }
      .transportError (chars "a.txt") = (none, 1) := by
  decide

/-- C2, amended: Readdir (Enumerate) memoizes — once the node is cached it
performs no new fetch and serves the memoized listing — but Lookup performs
exactly one listing fetch on every call and never consults the memoized
listing: its result is unchanged under any change of the node's cache
fields. -/
theorem C2_memoization (s : StorachaFS) (f : GetResult) (name : Str) :
    (∀ (cache : List DirEntry) (cached : Bool),
        lookup { s with cache := cache, cached := cached } f name =
          lookup s f name) ∧
    (lookup s f name).2 = 1 ∧
    (s.cached = true → readdir s f = (some s.cache, s, 0)) := by
  refine ⟨fun _ _ => rfl, ?_, ?_⟩
  · cases f with
    | transportError => rfl
    | resp st body => cases body <;> rfl
  · intro hc
    simp [readdir, hc]

/-- C2, witness for the amended theorem at a memoized concrete node. -/
theorem C2_memoization_witness :
    lookup
      { cid := chars "QmParent", debug := false,
        cache := [{ ino := hashInode (chars "QmParent/a.txt"),
                    name := chars "a.txt", mode := fileMode }],
        cached := true }
      .transportError (chars "a.txt") =
      lookup (NewStorachaFS (chars "QmParent") false) .transportError
        (chars "a.txt") ∧
    (lookup (NewStorachaFS (chars "QmParent") false) .transportError
        (chars "a.txt")).2 = 1 ∧
    readdir
      { cid := chars "QmParent", debug := false,
        cache := [{ ino := hashInode (chars "QmParent/a.txt"),
                    name := chars "a.txt", mode := fileMode }],
        cached := true }
      .transportError =
      (some [{ ino := hashInode (chars "QmParent/a.txt"),
               name := chars "a.txt", mode := fileMode }],
       { cid := chars "QmParent", debug := false,
         cache := [{ ino := hashInode (chars "QmParent/a.txt"),
                     name := chars "a.txt", mode := fileMode }],
         cached := true }, 0) :=
  ⟨(C2_memoization (NewStorachaFS (chars "QmParent") false) .transportError
      (chars "a.txt")).1
      [{ ino := hashInode (chars "QmParent/a.txt"),
         name := chars "a.txt", mode := fileMode }] true,
   (C2_memoization (NewStorachaFS (chars "QmParent") false) .transportError
      (chars "a.txt")).2.1,
   (C2_memoization
      { cid := chars "QmParent", debug := false,
        cache := [{ ino := hashInode (chars "QmParent/a.txt"),
                    name := chars "a.txt", mode := fileMode }],
        cached := true }
      .transportError (chars "a.txt")).2.2 rfl⟩

/-- C3, code bug: when the content fetch's transport succeeds but the body
read fails (here after zero bytes), Open returns success — the source
discards io.ReadAll's error — and memoizes the partial (empty) payload as a
non-nil slice, so the node is permanently treated as Fetched: a later Open
performs no retry.  The claim (and the spec) say such an Open fails with
NotFound and leaves the payload absent for retry. -/
theorem C3_read_error_swallowed :
    openFile (NewStorachaFile (chars "a.txt") (chars "QmChild") false)
      (.resp [] true) =
      (.ok, { name := chars "a.txt", cid := chars "QmChild",
              data := some [], debug := false }) ∧
    openFile
      { name := chars "a.txt", cid := chars "QmChild",
        data := some [], debug := false }
      ContentFetch.transportError =
      (.ok, { name := chars "a.txt", cid := chars "QmChild",
              data := some [], debug := false }) := by
  decide

/-- C4, counterexample: a response with the non-success status 404 whose
body is readable and parseable does yield a listing — Readdir returns the
extracted entry, memoizes it, and does not return NotFound, because the
source never inspects resp.StatusCode. -/
theorem C4_status_ignored :
    readdir (NewStorachaFS (chars "QmParent") false)
        (.resp 404 (.anchors [chars "/ipfs/QmChild/a.txt"])) =
      (some [{ ino := hashInode (chars "QmParent/a.txt"),
               name := chars "a.txt", mode := fileMode }],
       { cid := chars "QmParent", debug := false,
         cache := [{ ino := hashInode (chars "QmParent/a.txt"),
                     name := chars "a.txt", mode := fileMode }],
         cached := true }, 1) := by
  decide

/-- C4, amended: a transport failure, a body-read failure, or a parse
failure of the single GET makes the whole fetch fail with NotFound (no
entries, node left unmemoized so the next call retries), but the HTTP
status code is never inspected: both Readdir's and Lookup's results are
independent of the status, so a non-success status with a readable,
parseable body yields a normal (possibly empty) listing. -/
theorem C4_fetch_errors (s : StorachaFS) (hc : s.cached = false) :
    readdir s .transportError = (none, s, 1) ∧
    (∀ st, readdir s (.resp st .readFail) = (none, s, 1)) ∧
    (∀ st, readdir s (.resp st .parseFail) = (none, s, 1)) ∧
    (∀ st st' b, readdir s (.resp st b) = readdir s (.resp st' b)) ∧
    (∀ st st' b name, lookup s (.resp st b) name = lookup s (.resp st' b) name) := by
  refine ⟨?_, ?_, ?_, ?_, ?_⟩
  · simp [readdir, hc]
  · intro st; simp [readdir, hc]
  · intro st; simp [readdir, hc]
  · intro st st' b; cases b <;> simp [readdir, hc]
  · intro st st' b name; rfl

/-- C4, witness for the amended theorem at concrete inputs. -/
theorem C4_fetch_errors_witness :
    readdir (NewStorachaFS (chars "Qm") false) .transportError =
      (none, NewStorachaFS (chars "Qm") false, 1) ∧
    readdir (NewStorachaFS (chars "Qm") false) (.resp 500 .readFail) =
      (none, NewStorachaFS (chars "Qm") false, 1) ∧
    readdir (NewStorachaFS (chars "Qm") false) (.resp 500 .parseFail) =
      (none, NewStorachaFS (chars "Qm") false, 1) ∧
    readdir (NewStorachaFS (chars "Qm") false) (.resp 404 (.anchors [])) =
      readdir (NewStorachaFS (chars "Qm") false) (.resp 200 (.anchors [])) ∧
    lookup (NewStorachaFS (chars "Qm") false) (.resp 404 (.anchors []))
        (chars "x") =
      lookup (NewStorachaFS (chars "Qm") false) (.resp 200 (.anchors []))
        (chars "x") :=
  ⟨(C4_fetch_errors (NewStorachaFS (chars "Qm") false) rfl).1,
   (C4_fetch_errors (NewStorachaFS (chars "Qm") false) rfl).2.1 500,
   (C4_fetch_errors (NewStorachaFS (chars "Qm") false) rfl).2.2.1 500,
   (C4_fetch_errors (NewStorachaFS (chars "Qm") false) rfl).2.2.2.1 404 200
     (.anchors []),
   (C4_fetch_errors (NewStorachaFS (chars "Qm") false) rfl).2.2.2.2 404 200
     (.anchors []) (chars "x")⟩

/-- C5: for a File Node with fetched payload `p`, Read at an offset at or
past the end returns an empty result with errno 0 (success, not an error),
and otherwise returns exactly the slice `p[offset : min(offset+length,
len(p))]`, again with errno 0. -/
theorem C5_read_slice (p : List Nat) (sf : StorachaFile) (off len : Nat)
    (hp : sf.data = some p) :
    (p.length ≤ off → readFile sf off len = ([], .ok)) ∧
    (off < p.length →
      readFile sf off len =
        ((p.take (min (off + len) p.length)).drop off, .ok)) := by
  constructor
  · intro hge
    simp [readFile, hp, hge]
  · intro hlt
    have hnot : ¬p.length ≤ off := not_le.mpr hlt
    simp only [readFile, hp, Option.getD_some, if_neg hnot]
    rw [List.take_drop]
    have harith :
        off + ((if p.length < off + len then p.length else off + len) - off) =
          min (off + len) p.length := by
      rcases Nat.lt_or_ge p.length (off + len) with h | h
      · rw [if_pos h]
        omega
      · rw [if_neg (not_lt.mpr h)]
        omega
    rw [harith]

/-- C5, witness: with a payload of length 10, Read(offset=10, length=5) is
empty with errno 0 and Read(offset=7, length=10) returns exactly
payload[7:10], here the three bytes [7, 8, 9]. -/
theorem C5_read_slice_witness :
    readFile
      { name := chars "f", cid := chars "Q",
        data := some [0, 1, 2, 3, 4, 5, 6, 7, 8, 9], debug := false } 10 5 =
      ([], .ok) ∧
    readFile
      { name := chars "f", cid := chars "Q",
        data := some [0, 1, 2, 3, 4, 5, 6, 7, 8, 9], debug := false } 7 10 =
      ([7, 8, 9], .ok) := by
  constructor
  · exact (C5_read_slice [0, 1, 2, 3, 4, 5, 6, 7, 8, 9]
      { name := chars "f", cid := chars "Q",
        data := some [0, 1, 2, 3, 4, 5, 6, 7, 8, 9], debug := false }
      10 5 rfl).1 (by decide)
  · have h := (C5_read_slice [0, 1, 2, 3, 4, 5, 6, 7, 8, 9]
      { name := chars "f", cid := chars "Q",
        data := some [0, 1, 2, 3, 4, 5, 6, 7, 8, 9], debug := false }
      7 10 rfl).2 (by decide)
    rw [h]
    decide

/-- C6: Enumerate (Readdir) is idempotent after first success — whenever a
Readdir call succeeds with listing `l` and leaves state `s'`, the call
performed exactly one HTTP fetch if the node was not yet memoized, the node
is memoized afterwards, and every subsequent Readdir, under any fetch
outcome whatsoever, returns the identical listing `l`, the identical state
`s'`, and performs zero fetches. -/
theorem C6_enumerate_idempotent (s : StorachaFS) (f : GetResult)
    (l : List DirEntry) (s' : StorachaFS) (n : Nat)
    (h : readdir s f = (some l, s', n)) :
    (s.cached = false → n = 1) ∧ s'.cached = true ∧
      ∀ f', readdir s' f' = (some l, s', 0) := by
  by_cases hc : s.cached
  · simp only [readdir, if_pos hc, Prod.mk.injEq, Option.some.injEq] at h
    obtain ⟨hl, hs, hn⟩ := h
    refine ⟨fun hfalse => by rw [hfalse] at hc; exact absurd hc (by simp), ?_, ?_⟩
    · rw [← hs]; exact hc
    · intro f'
      rw [← hs, ← hl]
      simp [readdir, hc]
  · cases f with
    | transportError =>
        simp only [readdir, if_neg hc, Prod.mk.injEq] at h
        exact absurd h.1 (by simp)
    | resp st body =>
        cases body with
        | readFail =>
            simp only [readdir, if_neg hc, Prod.mk.injEq] at h
            exact absurd h.1 (by simp)
        | parseFail =>
            simp only [readdir, if_neg hc, Prod.mk.injEq] at h
            exact absurd h.1 (by simp)
        | anchors hrefs =>
            simp only [readdir, if_neg hc, Prod.mk.injEq,
              Option.some.injEq] at h
            obtain ⟨hl, hs, hn⟩ := h
            refine ⟨fun _ => hn.symm, ?_, ?_⟩
            · rw [← hs]
            · intro f'
              rw [← hs, ← hl]
              simp [readdir]

/-- C6, witness: a concrete run — the first Readdir on a fresh node fetches
once and memoizes, and a second Readdir under a failing fetch still returns
the identical listing with zero fetches. -/
theorem C6_enumerate_idempotent_witness :
    ((NewStorachaFS (chars "QmParent") false).cached = false → (1 : Nat) = 1) ∧
    ({ cid := chars "QmParent", debug := false,
       cache := [{ ino := hashInode (chars "QmParent/a.txt"),
                   name := chars "a.txt", mode := fileMode }],
       cached := true } : StorachaFS).cached = true ∧
    readdir
      { cid := chars "QmParent", debug := false,
        cache := [{ ino := hashInode (chars "QmParent/a.txt"),
                    name := chars "a.txt", mode := fileMode }],
        cached := true }
      .transportError =
      (some [{ ino := hashInode (chars "QmParent/a.txt"),
               name := chars "a.txt", mode := fileMode }],
       { cid := chars "QmParent", debug := false,
         cache := [{ ino := hashInode (chars "QmParent/a.txt"),
                     name := chars "a.txt", mode := fileMode }],
         cached := true }, 0) := by
  have h := C6_enumerate_idempotent (NewStorachaFS (chars "QmParent") false)
    (.resp 200 (.anchors [chars "/ipfs/QmChild/a.txt"]))
    [{ ino := hashInode (chars "QmParent/a.txt"),
       name := chars "a.txt", mode := fileMode }]
    { cid := chars "QmParent", debug := false,
      cache := [{ ino := hashInode (chars "QmParent/a.txt"),
                  name := chars "a.txt", mode := fileMode }],
      cached := true }
    1 (by decide)
  exact ⟨h.1, h.2.1, h.2.2 .transportError⟩

/-- C7: anchor classification on the claim's document — the anchors
`/ipfs/CID1/a.txt`, `/ipfs/CID2/sub/`, `../` and an entry without the
`ipfs` object marker yield exactly the file entry `a.txt` and the directory
entry `sub` (the modes encode the isDirectory flag), in document order; and
duplicate anchors are passed through without deduplication. -/
theorem C7_anchor_classification :
    parseEntries (chars "QmRoot")
        [chars "/ipfs/CID1/a.txt", chars "/ipfs/CID2/sub/", chars "../",
         chars "/foo/bar"] =
      [{ ino := hashInode (chars "QmRoot/a.txt"), name := chars "a.txt",
         mode := fileMode },
       { ino := hashInode (chars "QmRoot/sub"), name := chars "sub",
         mode := dirMode }] ∧
    parseEntries (chars "QmRoot")
        [chars "/ipfs/CID1/a.txt", chars "/ipfs/CID1/a.txt"] =
      [{ ino := hashInode (chars "QmRoot/a.txt"), name := chars "a.txt",
         mode := fileMode },
       { ino := hashInode (chars "QmRoot/a.txt"), name := chars "a.txt",
         mode := fileMode }] := by
  decide

/-- C8: every file-node attribute query reports regular-file type with
read-only permission bits, size equal to the payload length once fetched
and 0 before the first fetch, and clock-derived timestamps; the operation
is a pure function of the node and the clock — it performs no fetch and
leaves the node unchanged. -/
theorem C8_getattr_file (sf : StorachaFile) (now : Nat) :
    (getattrFile sf now).mode = fileMode ∧
    (∀ p, sf.data = some p → (getattrFile sf now).size = p.length) ∧
    (sf.data = none → (getattrFile sf now).size = 0) ∧
    (getattrFile sf now).mtime = now ∧
    (getattrFile sf now).atime = now ∧
    (getattrFile sf now).ctime = now := by
  refine ⟨rfl, ?_, ?_, rfl, rfl, rfl⟩
  · intro p hp
    simp [getattrFile, hp]
  · intro hp
    simp [getattrFile, hp]

/-- C8, witness at a fetched and an unfetched concrete node. -/
theorem C8_getattr_file_witness :
    (getattrFile
      { name := chars "f", cid := chars "Q", data := some [1, 2, 3],
        debug := false } 42).mode = fileMode ∧
    (getattrFile
      { name := chars "f", cid := chars "Q", data := some [1, 2, 3],
        debug := false } 42).size = ([1, 2, 3] : List Nat).length ∧
    (getattrFile (NewStorachaFile (chars "f") (chars "Q") false) 42).size = 0 ∧
    (getattrFile
      { name := chars "f", cid := chars "Q", data := some [1, 2, 3],
        debug := false } 42).mtime = 42 :=
  ⟨(C8_getattr_file _ 42).1,
   (C8_getattr_file _ 42).2.1 [1, 2, 3] rfl,
   (C8_getattr_file (NewStorachaFile (chars "f") (chars "Q") false) 42).2.2.1
     rfl,
   (C8_getattr_file _ 42).2.2.2.1⟩

/-- C9: Read never returns an error — for every file node (including one
whose payload was never fetched, which behaves as a zero-length payload)
and every offset and destination length, the errno component is 0. -/
theorem C9_read_never_errs (sf : StorachaFile) (off len : Nat) :
    (readFile sf off len).2 = .ok ∧
    (sf.data = none → readFile sf off len = ([], .ok)) := by
  constructor
  · simp only [readFile]
    split
    · rfl
    · rfl
  · intro hp
    simp [readFile, hp]

/-- C9, witness: Read on a never-fetched node succeeds with an empty
result. -/
theorem C9_read_never_errs_witness :
    (readFile (NewStorachaFile (chars "f") (chars "Q") false) 3 7).2 = .ok ∧
    readFile (NewStorachaFile (chars "f") (chars "Q") false) 3 7 =
      ([], .ok) :=
  ⟨(C9_read_never_errs (NewStorachaFile (chars "f") (chars "Q") false) 3 7).1,
   (C9_read_never_errs (NewStorachaFile (chars "f") (chars "Q") false) 3 7).2
     rfl⟩

/-- C10: whenever the HTTP request, body read, and parse of a Readdir all
succeed but zero child entries are extracted, the node still transitions to
the memoized state: the empty listing is stored, the call succeeds, and
every subsequent Readdir returns the same empty listing with zero further
fetches. -/
theorem C10_empty_listing_cached (s : StorachaFS) (st : Nat)
    (hrefs : List Str) (hc : s.cached = false)
    (hp : parseEntries s.cid hrefs = []) :
    readdir s (.resp st (.anchors hrefs)) =
      (some [], { s with cache := [], cached := true }, 1) ∧
    ∀ f', readdir { s with cache := [], cached := true } f' =
      (some [], { s with cache := [], cached := true }, 0) := by
  constructor
  · simp [readdir, hc, hp]
  · intro f'
    simp [readdir]

/-- C10, witness: a parseable document whose only anchor is the
parent-reference entry yields the empty listing, which is memoized, and a
second Readdir under a failing fetch still returns it with no fetch. -/
theorem C10_empty_listing_cached_witness :
    readdir (NewStorachaFS (chars "QmEmpty") false)
        (.resp 200 (.anchors [chars "../"])) =
      (some [], { cid := chars "QmEmpty", debug := false, cache := [],
                  cached := true }, 1) ∧
    readdir
      { cid := chars "QmEmpty", debug := false, cache := [], cached := true }
      .transportError =
      (some [], { cid := chars "QmEmpty", debug := false, cache := [],
                  cached := true }, 0) :=
  ⟨(C10_empty_listing_cached (NewStorachaFS (chars "QmEmpty") false) 200
      [chars "../"] rfl (by decide)).1,
   (C10_empty_listing_cached (NewStorachaFS (chars "QmEmpty") false) 200
      [chars "../"] rfl (by decide)).2 .transportError⟩
